import Mathlib

set_option maxRecDepth 40000

/-!
Shallow embedding of `src/warranty_check.py`, the Lenovo warranty batch
checker.  The embedding models the data the program manipulates and the
pure content of its operations:

* `QueryResult` mirrors the `@dataclass QueryResult` (lines 18-48).
* `query_with_retry` mirrors `WarrantyCheckerApp.query_with_retry`
  (lines 89-150); the network is abstracted as a function
  `attempts : Nat → Attempt` giving the outcome of each attempt, and the
  process-wide `self.query_cache` dictionary is passed in and returned.
* `update_result_display` mirrors the service-count computation and the
  in-place field assignments of `_update_result_display` (lines 284-342);
  Python's in-place mutation of the shared object is modelled as a
  function returning the updated record.
* `handle_completion` / `execute_query` mirror the completion-handling
  loop of `execute_query` (lines 179-201), with `save_count` counting the
  calls to `save_results`.
* `save_results` / `load_previous_results` mirror the JSON persistence
  (lines 349-372); the durable document is a list of entries whose value
  is `some d` when `QueryResult.from_dict` accepts it and `none` when
  decoding it would raise.

Python dictionaries are modelled as insertion-ordered association lists
(`dictLookup` / `dictInsert`), Python sets as lists with membership-guarded
insertion (`set_add`).
-/

/-- One service-detail entry of the decoded response
(`detailinfo[service_type]` items).  Fields are optional because the code
reads them with `dict.get` and a default.  `dateDifference` is the signed
"days remaining" figure read as `int(item.get('DateDifference', 0))`. -/
structure ServiceItem where
  serviceProductName : Option String
  startDate : Option String
  endDate : Option String
  dateDifference : Option Int
  serviceDescription : Option String
deriving DecidableEq, Repr

/-- The decoded response document of one lookup: the top-level
`statusCode`, the service groups `data['data'].get('detailinfo', {})`
(a dictionary keyed by service-type tag), and the optional `message`. -/
structure ResponsePayload where
  statusCode : Int
  detailinfo : List (String × List ServiceItem)
  message : Option String
deriving DecidableEq, Repr

/-- The `data` field of a `QueryResult`: either the decoded response
document stored verbatim on success / non-200 status, or the
`{'error': msg}` dictionary built on an exhausted exception path. -/
inductive ResultData where
  | payload (p : ResponsePayload)
  | errorDict (msg : String)
deriving DecidableEq, Repr

/-- Mirror of the `QueryResult` dataclass (lines 18-29), with the
dataclass defaults for `retry_count` and the three service counters. -/
structure QueryResult where
  serial : String
  index : Nat
  total : Nat
  success : Bool
  data : ResultData
  retry_count : Nat := 0
  valid_services : Nat := 0
  expired_services : Nat := 0
  total_services : Nat := 0
deriving DecidableEq, Repr

/-- The dictionary produced by `QueryResult.to_dict` (lines 31-43): one
key per dataclass field. -/
structure QueryResultDict where
  serial : String
  index : Nat
  total : Nat
  success : Bool
  data : ResultData
  retry_count : Nat
  valid_services : Nat
  expired_services : Nat
  total_services : Nat
deriving DecidableEq, Repr

/-- `QueryResult.to_dict` (lines 31-43). -/
def QueryResult.to_dict (r : QueryResult) : QueryResultDict :=
  { serial := r.serial, index := r.index, total := r.total,
    success := r.success, data := r.data, retry_count := r.retry_count,
    valid_services := r.valid_services, expired_services := r.expired_services,
    total_services := r.total_services }

/-- `QueryResult.from_dict` (lines 45-48): `cls(**data)`. -/
def QueryResult.from_dict (d : QueryResultDict) : QueryResult :=
  { serial := d.serial, index := d.index, total := d.total,
    success := d.success, data := d.data, retry_count := d.retry_count,
    valid_services := d.valid_services, expired_services := d.expired_services,
    total_services := d.total_services }

/-- Python `dict` lookup (`d[k]` / `k in d`) on an insertion-ordered
association list. -/
def dictLookup {α : Type} (d : List (String × α)) (k : String) : Option α :=
  match d with
  | [] => none
  | (k2, v) :: rest => if k2 = k then some v else dictLookup rest k

/-- Python `dict` assignment `d[k] = v`: an existing key keeps its
position and gets the new value, a new key is appended. -/
def dictInsert {α : Type} (d : List (String × α)) (k : String) (v : α) :
    List (String × α) :=
  match d with
  | [] => [(k, v)]
  | (k2, v2) :: rest =>
      if k2 = k then (k, v) :: rest else (k2, v2) :: dictInsert rest k v

/-- The keys of a modelled dictionary, in insertion order. -/
def dictKeys {α : Type} (d : List (String × α)) : List String :=
  d.map Prod.fst

/-- Python `set.add` on a list-modelled set. -/
def set_add (s : List String) (x : String) : List String :=
  if x ∈ s then s else x :: s

/-- Outcome of one network attempt inside the retry loop: either the
`session.get` / `raise_for_status` / `response.json()` /
`data['statusCode']` sequence raised (transport or decode error,
carrying `str(e)`), or it produced a decoded document. -/
inductive Attempt where
  | error (msg : String)
  | response (p : ResponsePayload)
deriving DecidableEq, Repr

/-- Whether an attempt is functionally successful: a decoded document
whose `statusCode` equals 200. -/
def attemptSucceeds : Attempt → Bool
  | Attempt.error _ => false
  | Attempt.response p => p.statusCode == 200

/-- The `data` of the `Failure` result built when the last attempt
fails: `{'error': str(e)}` on an exception, or
`{'error': f"API返回状态码错误: ..."}` on a non-200 status (lines 129-150). -/
def last_failure_data : Attempt → ResultData
  | Attempt.error msg => ResultData.errorDict msg
  | Attempt.response p =>
      ResultData.errorDict ("API返回状态码错误: " ++ toString p.statusCode)

/-- The retry loop `for retry_count in range(self.max_retries + 1)`
(lines 103-150), iterating over the list of attempt numbers.  `none`
models the (unreachable for a started loop) case of the loop body
falling through without a `return`. -/
def queryLoop (serial : String) (index total max_retries : Nat)
    (attempts : Nat → Attempt) : List Nat → Option QueryResult
  | [] => none
  | rc :: rest =>
    match attempts rc with
    | Attempt.response p =>
        if p.statusCode == 200 then
          some { serial := serial, index := index, total := total,
                 success := true, data := ResultData.payload p,
                 retry_count := rc }
        else if rc < max_retries then
          queryLoop serial index total max_retries attempts rest
        else
          some { serial := serial, index := index, total := total,
                 success := false,
                 data := ResultData.errorDict
                   ("API返回状态码错误: " ++ toString p.statusCode),
                 retry_count := rc }
    | Attempt.error msg =>
        if rc < max_retries then
          queryLoop serial index total max_retries attempts rest
        else
          some { serial := serial, index := index, total := total,
                 success := false, data := ResultData.errorDict msg,
                 retry_count := rc }

/-- `WarrantyCheckerApp.query_with_retry` (lines 89-150).  The function
first consults `self.query_cache` (lines 91-92) and returns the cached
object on a hit; on a miss it runs the retry loop.  The cache write
`self.query_cache[serial] = result` (line 122) sits on the unique path
that returns a result with `success=True`, so it is rendered here as an
insertion performed exactly when the loop's result is successful.  The
second component of the returned pair is the cache after the call. -/
def query_with_retry (cache : List (String × QueryResult)) (max_retries : Nat)
    (serial : String) (index total : Nat) (attempts : Nat → Attempt) :
    Option QueryResult × List (String × QueryResult) :=
  match dictLookup cache serial with
  | some r => (some r, cache)
  | none =>
    match queryLoop serial index total max_retries attempts
        (List.range (max_retries + 1)) with
    | none => (none, cache)
    | some r => (some r, if r.success then dictInsert cache serial r else cache)

/-- `remaining_days = int(item.get('DateDifference', 0))` (line 305). -/
def remaining_days (item : ServiceItem) : Int :=
  item.dateDifference.getD 0

/-- The fixed group tags iterated by the display code (line 294). -/
def service_types : List String := ["warranty", "onsite", "other"]

/-- A service entry counted as valid: `remaining_days > 0` (line 308). -/
def service_valid (item : ServiceItem) : Bool :=
  decide (0 < remaining_days item)

/-- A service entry counted as expired: the `else` branch of
`remaining_days > 0`, i.e. a non-positive figure. -/
def service_expired (item : ServiceItem) : Bool :=
  decide (remaining_days item ≤ 0)

/-- The inner counting loop over the entries of one group
(lines 304-311): a positive remaining-days figure increments the valid
counter, any other increments the expired counter. -/
def count_group (acc : Nat × Nat) (items : List ServiceItem) : Nat × Nat :=
  items.foldl
    (fun acc2 item =>
      if remaining_days item > 0 then (acc2.1 + 1, acc2.2)
      else (acc2.1, acc2.2 + 1))
    acc

/-- The outer loop over `service_types` with the `service_type in
detail_info` membership guard (lines 299-311). -/
def count_types (d : List (String × List ServiceItem)) (acc : Nat × Nat) :
    List String → Nat × Nat
  | [] => acc
  | t :: ts =>
    match dictLookup d t with
    | some items => count_types d (count_group acc items) ts
    | none => count_types d acc ts

/-- The full service count of one decoded `detailinfo` dictionary,
starting from `valid_services = 0`, `expired_services = 0`. -/
def count_services (d : List (String × List ServiceItem)) : Nat × Nat :=
  count_types d (0, 0) service_types

/-- All entries the display code visits, across the fixed service-type
groups in their iteration order. -/
def all_entries (d : List (String × List ServiceItem)) : List ServiceItem :=
  List.flatten (service_types.map (fun t => (dictLookup d t).getD []))

/-- The state-changing content of `_update_result_display`
(lines 284-342).  For a `result` with `success` and `statusCode == 200`
the code counts the services and assigns `result.valid_services`,
`result.expired_services` and `result.total_services` in place
(lines 322-324); every other shape of `result` (including the
`KeyError` on a `data` without `statusCode`, caught by the blanket
`except` at line 341) leaves the object unchanged.  The in-place
mutation is modelled as returning the updated record. -/
def update_result_display (r : QueryResult) : QueryResult :=
  if r.success then
    match r.data with
    | ResultData.payload p =>
        if p.statusCode == 200 then
          let c := count_services p.detailinfo
          { r with valid_services := c.1, expired_services := c.2,
                   total_services := c.1 + c.2 }
        else r
    | ResultData.errorDict _ => r
  else r

/-- State of the completion-handling loop of `execute_query`
(lines 179-201): the local `completed` counter, the local
`failed_serials` set, the instance dictionary `self.query_results`,
and an instrumentation counter for the calls to `save_results`. -/
structure ExecState where
  completed : Nat
  failed_serials : List String
  query_results : List (String × QueryResult)
  save_count : Nat
deriving DecidableEq, Repr

/-- The storing condition of line 190:
`result.success and result.data['statusCode'] == 200`. -/
def store_condition (r : QueryResult) : Bool :=
  r.success &&
    (match r.data with
     | ResultData.payload p => p.statusCode == 200
     | ResultData.errorDict _ => false)

/-- One iteration of the `as_completed` loop (lines 180-198).  The
`completed` counter is incremented, `update_result_text(result)` runs
the display update (which mutates the shared result object), then
line 190 stores the result when it is a status-200 success — saving the
store when `completed` is a multiple of 100 — and otherwise adds the
serial to `failed_serials`.  A success whose `data` lacks a
`statusCode` key would raise at line 190 and be swallowed by the
`except` at line 197, leaving both collections untouched. -/
def handle_completion (st : ExecState) (r0 : QueryResult) : ExecState :=
  let completed := st.completed + 1
  let r := update_result_display r0
  match r.success, r.data with
  | true, ResultData.payload p =>
      if p.statusCode == 200 then
        { completed := completed,
          failed_serials := st.failed_serials,
          query_results := dictInsert st.query_results r.serial r,
          save_count :=
            if completed % 100 == 0 then st.save_count + 1 else st.save_count }
      else
        { completed := completed,
          failed_serials := set_add st.failed_serials r.serial,
          query_results := st.query_results,
          save_count := st.save_count }
  | true, ResultData.errorDict _ =>
      { completed := completed,
        failed_serials := st.failed_serials,
        query_results := st.query_results,
        save_count := st.save_count }
  | false, _ =>
      { completed := completed,
        failed_serials := set_add st.failed_serials r.serial,
        query_results := st.query_results,
        save_count := st.save_count }

/-- The completion-collection loop, folding `handle_completion` over
the results in completion order. -/
def process_completions (st : ExecState) (rs : List QueryResult) : ExecState :=
  rs.foldl handle_completion st

/-- `WarrantyCheckerApp.execute_query` (lines 166-201) restricted to its
completion handling: starting from the pre-existing `self.query_results`
store with `completed = 0` and an empty failure set, process every
completion, then perform the unconditional final `save_results()`
(line 200). -/
def execute_query (store : List (String × QueryResult))
    (rs : List QueryResult) : ExecState :=
  let final := process_completions
    { completed := 0, failed_serials := [], query_results := store,
      save_count := 0 } rs
  { final with save_count := final.save_count + 1 }

/-- The number of checkpoint saves the loop performs: one for each
completion that is stored (a status-200 success) and whose 1-based
completion number is a multiple of 100.  `c` is the number of
completions already handled. -/
def checkpoint_saves : Nat → List QueryResult → Nat
  | _, [] => 0
  | c, r :: rs =>
      (if store_condition r && ((c + 1) % 100 == 0) then 1 else 0) +
        checkpoint_saves (c + 1) rs

/-- The loading loop of `load_previous_results` (lines 349-359).  The
document is a list of entries whose value is `some d` when
`QueryResult.from_dict` accepts it and `none` when reading it would
raise; the `try` block wraps the whole loop, so the first raising entry
aborts the loop and the entries already assigned are kept. -/
def loadLoop : List (String × Option QueryResultDict) →
    List (String × QueryResult) → List (String × QueryResult)
  | [], acc => acc
  | (serial, some d) :: rest, acc =>
      loadLoop rest (dictInsert acc serial (QueryResult.from_dict d))
  | (_, none) :: _, acc => acc

/-- `WarrantyCheckerApp.load_previous_results` (lines 349-359): `none`
models a missing file or a document `json.load` rejects (the `except`
leaves the store empty); otherwise the loading loop runs from an empty
store. -/
def load_previous_results :
    Option (List (String × Option QueryResultDict)) →
      List (String × QueryResult)
  | none => []
  | some entries => loadLoop entries []

/-- `WarrantyCheckerApp.save_results` (lines 361-372): the document
written is `{serial: result.to_dict() for ...}`; every written entry
decodes back through `from_dict`. -/
def save_results (store : List (String × QueryResult)) :
    List (String × Option QueryResultDict) :=
  store.map (fun p => (p.1, some p.2.to_dict))

/-! ### Concrete fixtures used by witnesses and counterexamples -/

/-- A decoded success document with no service groups. -/
def payload_ok : ResponsePayload :=
  { statusCode := 200, detailinfo := [], message := none }

/-- An attempt function whose every attempt succeeds at once. -/
def attempts_ok : Nat → Attempt := fun _ => Attempt.response payload_ok

/-- An attempt function whose every attempt raises a timeout. -/
def attempts_all_timeout : Nat → Attempt := fun _ => Attempt.error "连接超时"

/-- An attempt function that raises on the first attempt and succeeds on
the second, so the created result carries `retry_count = 1`. -/
def attempts_fail_then_ok : Nat → Attempt := fun k =>
  if k == 0 then Attempt.error "连接超时" else Attempt.response payload_ok

/-- One expired service entry: `DateDifference = -5`. -/
def item_expired : ServiceItem :=
  { serviceProductName := some "基础保修", startDate := some "2020-01-01",
    endDate := some "2023-01-01", dateDifference := some (-5),
    serviceDescription := none }

/-- A success document with exactly one service-detail entry, carrying
`DateDifference = -5` in the `warranty` group. -/
def payload_one_expired : ResponsePayload :=
  { statusCode := 200, detailinfo := [("warranty", [item_expired])],
    message := none }

/-- A freshly created success result over `payload_one_expired`, with the
dataclass default counters. -/
def result_one_expired : QueryResult :=
  { serial := "ABCDEFGH12", index := 1, total := 1, success := true,
    data := ResultData.payload payload_one_expired, retry_count := 0 }

/-- A status-200 success result as the fetcher creates it. -/
def ok_result : QueryResult :=
  { serial := "AAAABBBB12", index := 1, total := 250, success := true,
    data := ResultData.payload payload_ok, retry_count := 0 }

/-- A failure result as the fetcher creates it after exhausting retries. -/
def fail_result_fx : QueryResult :=
  { serial := "FAILFAIL12", index := 1, total := 250, success := false,
    data := ResultData.errorDict "连接超时", retry_count := 2 }

/-- A 250-completion batch in which every completion is stored. -/
def batch_250_ok : List QueryResult := List.replicate 250 ok_result

/-- A 250-completion batch in which every completion failed. -/
def batch_250_fail : List QueryResult := List.replicate 250 fail_result_fx

/-- A decodable persisted entry. -/
def dict_ok : QueryResultDict :=
  { serial := "AAAA1111BB", index := 1, total := 2, success := true,
    data := ResultData.payload payload_ok, retry_count := 0,
    valid_services := 0, expired_services := 0, total_services := 0 }

/-- A second decodable persisted entry. -/
def dict_c : QueryResultDict :=
  { serial := "CCCC3333DD", index := 2, total := 2, success := true,
    data := ResultData.payload payload_one_expired, retry_count := 1,
    valid_services := 0, expired_services := 1, total_services := 1 }

/-- A persisted document whose middle entry cannot be decoded. -/
def doc_bad : List (String × Option QueryResultDict) :=
  [("AAAA1111BB", some dict_ok), ("BBBB2222CC", none),
   ("CCCC3333DD", some dict_c)]

/-- A result created by a first-attempt success for serial
`"ABCDEFGH12"` queried at position 1 of a 1-identifier batch. -/
def fetched_ok : QueryResult :=
  { serial := "ABCDEFGH12", index := 1, total := 1, success := true,
    data := ResultData.payload payload_ok, retry_count := 0 }

/-- A success created at position 3 of a 10-identifier batch. -/
def fetched_pos3 : QueryResult :=
  { serial := "ABCDEFGH12", index := 3, total := 10, success := true,
    data := ResultData.payload payload_ok, retry_count := 0 }

/-- A cached success that consumed one retry when it was created. -/
def cached_retry1 : QueryResult :=
  { serial := "ABCDEFGH12", index := 1, total := 1, success := true,
    data := ResultData.payload payload_ok, retry_count := 1 }

/-- A cache holding `cached_retry1`. -/
def cache_hit_ex : List (String × QueryResult) :=
  [("ABCDEFGH12", cached_retry1)]

/-- First query of `"ABCDEFGH12"`: the first attempt raises and the
retry succeeds, so the created (and cached) result carries
`retry_count = 1`. -/
def first_query_pair : Option QueryResult × List (String × QueryResult) :=
  query_with_retry [] 2 "ABCDEFGH12" 1 1 attempts_fail_then_ok

/-- Re-query of the same identifier against the cache produced by the
first query. -/
def second_query_pair : Option QueryResult × List (String × QueryResult) :=
  query_with_retry first_query_pair.2 2 "ABCDEFGH12" 1 1 attempts_fail_then_ok

/-- A two-entry store with distinct keys. -/
def store_ex : List (String × QueryResult) :=
  [("AAAABBBB12", ok_result), ("ABCDEFGH12", result_one_expired)]

/-- The initial completion-handling state over an empty store. -/
def init_exec_state : ExecState :=
  { completed := 0, failed_serials := [], query_results := [],
    save_count := 0 }

/-! ### Dictionary lemmas -/

lemma dictLookup_insert_self {α : Type} (d : List (String × α)) (k : String)
    (v : α) : dictLookup (dictInsert d k v) k = some v := by
  induction d with
  | nil => simp [dictInsert, dictLookup]
  | cons p rest ih =>
    obtain ⟨k2, v2⟩ := p
    by_cases h : k2 = k
    · simp [dictInsert, dictLookup, h]
    · simp [dictInsert, dictLookup, h, ih]

lemma dictLookup_insert_ne {α : Type} (d : List (String × α)) (k : String)
    (v : α) (s : String) (h : s ≠ k) :
    dictLookup (dictInsert d k v) s = dictLookup d s := by
  have hks : ¬ k = s := fun hh => h hh.symm
  induction d with
  | nil => simp [dictInsert, dictLookup, hks]
  | cons p rest ih =>
    obtain ⟨k2, v2⟩ := p
    by_cases h2 : k2 = k
    · subst h2
      simp [dictInsert, dictLookup, hks]
    · simp [dictInsert, dictLookup, h2, ih]

lemma mem_dictKeys_insert {α : Type} (d : List (String × α)) (k : String)
    (v : α) (s : String) :
    s ∈ dictKeys (dictInsert d k v) ↔ s ∈ dictKeys d ∨ s = k := by
  induction d with
  | nil => simp [dictInsert, dictKeys, eq_comm]
  | cons p rest ih =>
    obtain ⟨k2, v2⟩ := p
    by_cases h : k2 = k
    · subst h
      simp [dictInsert, dictKeys, eq_comm]
      tauto
    · simp [dictInsert, dictKeys, h] at ih ⊢
      tauto

lemma nodup_dictKeys_insert {α : Type} (d : List (String × α)) (k : String)
    (v : α) (h : (dictKeys d).Nodup) :
    (dictKeys (dictInsert d k v)).Nodup := by
  induction d with
  | nil => simp [dictInsert, dictKeys]
  | cons p rest ih =>
    obtain ⟨k2, v2⟩ := p
    simp only [dictKeys, List.map_cons, List.nodup_cons] at h
    obtain ⟨hnot, hrest⟩ := h
    by_cases h2 : k2 = k
    · subst h2
      have heq : dictInsert ((k2, v2) :: rest) k2 v = (k2, v) :: rest := by
        simp [dictInsert]
      rw [heq]
      simp only [dictKeys, List.map_cons, List.nodup_cons]
      exact ⟨by simpa using hnot, by simpa using hrest⟩
    · have hk2 : k2 ∉ dictKeys (dictInsert rest k v) := by
        rw [mem_dictKeys_insert]
        push_neg
        refine ⟨fun hm => hnot (by simpa [dictKeys] using hm), h2⟩
      simp only [dictInsert, h2, if_false, dictKeys, List.map_cons,
        List.nodup_cons]
      exact ⟨by simpa [dictKeys] using hk2, by simpa [dictKeys] using ih hrest⟩

lemma forall_dictInsert {α : Type} {P : String × α → Prop}
    (d : List (String × α)) (k : String) (v : α)
    (hd : ∀ p ∈ d, P p) (hkv : P (k, v)) :
    ∀ p ∈ dictInsert d k v, P p := by
  induction d with
  | nil => simpa [dictInsert] using hkv
  | cons q rest ih =>
    obtain ⟨k2, v2⟩ := q
    by_cases h : k2 = k
    · intro p hp
      simp only [dictInsert, h, if_true, List.mem_cons] at hp
      rcases hp with hp | hp
      · exact hp ▸ hkv
      · exact hd p (List.mem_cons_of_mem _ hp)
    · intro p hp
      simp only [dictInsert, h, if_false, List.mem_cons] at hp
      rcases hp with hp | hp
      · exact hp ▸ hd _ (List.mem_cons_self _ _)
      · exact ih (fun q hq => hd q (List.mem_cons_of_mem _ hq)) p hp

lemma dictInsert_of_not_mem {α : Type} (d : List (String × α)) (k : String)
    (v : α) (h : k ∉ dictKeys d) : dictInsert d k v = d ++ [(k, v)] := by
  induction d with
  | nil => simp [dictInsert]
  | cons p rest ih =>
    obtain ⟨k2, v2⟩ := p
    simp [dictKeys] at h
    push_neg at h
    have h2 : ¬ k2 = k := fun hh => (h.1 hh.symm).elim
    simp [dictInsert, h2, ih (by simpa [dictKeys] using h.2)]

/-! ### Display-update lemmas -/

lemma update_result_display_frame (r : QueryResult) :
    (update_result_display r).serial = r.serial ∧
      (update_result_display r).index = r.index ∧
      (update_result_display r).total = r.total ∧
      (update_result_display r).success = r.success ∧
      (update_result_display r).data = r.data ∧
      (update_result_display r).retry_count = r.retry_count := by
  obtain ⟨s, i, t, succ, d, rc, v, e, tot⟩ := r
  cases succ with
  | false => simp [update_result_display]
  | true =>
    cases d with
    | errorDict m => simp [update_result_display]
    | payload p =>
      by_cases h : (p.statusCode == 200) = true
      · simp [update_result_display, h]
      · rw [Bool.not_eq_true] at h
        simp [update_result_display, h]

lemma store_condition_update (r : QueryResult) :
    store_condition (update_result_display r) = store_condition r := by
  have h := update_result_display_frame r
  rw [store_condition, store_condition, h.2.2.2.1, h.2.2.2.2.1]

lemma update_result_display_serial (r : QueryResult) :
    (update_result_display r).serial = r.serial :=
  (update_result_display_frame r).1

/-! ### Completion-handling lemmas -/

lemma handle_completion_store (st : ExecState) (r0 : QueryResult)
    (h : store_condition r0 = true) :
    handle_completion st r0 =
      { completed := st.completed + 1,
        failed_serials := st.failed_serials,
        query_results :=
          dictInsert st.query_results r0.serial (update_result_display r0),
        save_count :=
          if (st.completed + 1) % 100 == 0 then st.save_count + 1
          else st.save_count } := by
  have hu : store_condition (update_result_display r0) = true := by
    rw [store_condition_update]; exact h
  have hser := update_result_display_serial r0
  rw [handle_completion]
  cases hud : update_result_display r0 with
  | mk s i t succ d rc v e tot =>
    rw [hud] at hu hser
    rw [store_condition] at hu
    simp only at hu hser
    rw [Bool.and_eq_true] at hu
    obtain ⟨hsucc, hcode⟩ := hu
    cases succ with
    | false => exact absurd hsucc (by simp)
    | true =>
      cases d with
      | errorDict m => exact absurd hcode (by simp)
      | payload p =>
        simp only at hcode
        simp only [hcode, if_true, hser]

lemma handle_completion_no_store (st : ExecState) (r0 : QueryResult)
    (h : store_condition r0 = false) :
    (handle_completion st r0).query_results = st.query_results ∧
      (handle_completion st r0).completed = st.completed + 1 ∧
      (handle_completion st r0).save_count = st.save_count := by
  have hu : store_condition (update_result_display r0) = false := by
    rw [store_condition_update]; exact h
  rw [handle_completion]
  cases hud : update_result_display r0 with
  | mk s i t succ d rc v e tot =>
    rw [hud] at hu
    rw [store_condition] at hu
    simp only at hu
    cases succ with
    | false => exact ⟨rfl, rfl, rfl⟩
    | true =>
      cases d with
      | errorDict m => exact ⟨rfl, rfl, rfl⟩
      | payload p =>
        simp only [Bool.true_and] at hu
        simp only [hu, if_false]
        exact ⟨rfl, rfl, rfl⟩

lemma handle_completion_completed (st : ExecState) (r0 : QueryResult) :
    (handle_completion st r0).completed = st.completed + 1 := by
  by_cases h : store_condition r0 = true
  · rw [handle_completion_store st r0 h]
  · rw [Bool.not_eq_true] at h
    exact (handle_completion_no_store st r0 h).2.1

lemma handle_completion_save_count (st : ExecState) (r0 : QueryResult) :
    (handle_completion st r0).save_count =
      st.save_count +
        (if store_condition r0 && ((st.completed + 1) % 100 == 0) then 1
         else 0) := by
  by_cases h : store_condition r0 = true
  · rw [handle_completion_store st r0 h, h, Bool.true_and]
    by_cases h2 : ((st.completed + 1) % 100 == 0) = true
    · simp [h2]
    · rw [Bool.not_eq_true] at h2
      simp [h2]
  · rw [Bool.not_eq_true] at h
    rw [(handle_completion_no_store st r0 h).2.2, h, Bool.false_and]
    simp

lemma process_completions_save_count (rs : List QueryResult) :
    ∀ st : ExecState,
      (process_completions st rs).save_count =
        st.save_count + checkpoint_saves st.completed rs := by
  induction rs with
  | nil => intro st; simp [process_completions, checkpoint_saves]
  | cons r rest ih =>
    intro st
    have step : process_completions st (r :: rest) =
        process_completions (handle_completion st r) rest := rfl
    rw [step, ih (handle_completion st r), handle_completion_save_count,
      handle_completion_completed, checkpoint_saves]
    omega

/-! ### Service-count lemmas -/

lemma count_group_spec (items : List ServiceItem) :
    ∀ acc : Nat × Nat,
      count_group acc items =
        (acc.1 + List.countP service_valid items,
         acc.2 + List.countP service_expired items) := by
  induction items with
  | nil => intro acc; simp [count_group, List.countP_nil]
  | cons it rest ih =>
    intro acc
    have step : count_group acc (it :: rest) =
        count_group
          (if remaining_days it > 0 then (acc.1 + 1, acc.2)
           else (acc.1, acc.2 + 1)) rest := rfl
    by_cases h : remaining_days it > 0
    · have hv : service_valid it = true := by
        simp [service_valid, h]
      have he : service_expired it = false := by
        simp [service_expired]
        omega
      rw [step, if_pos h, ih, List.countP_cons, List.countP_cons, hv, he]
      simp
      omega
    · have hv : service_valid it = false := by
        simp [service_valid]
        omega
      have he : service_expired it = true := by
        simp [service_expired]
        omega
      rw [step, if_neg h, ih, List.countP_cons, List.countP_cons, hv, he]
      simp
      omega

lemma count_types_spec (d : List (String × List ServiceItem))
    (ts : List String) :
    ∀ acc : Nat × Nat,
      count_types d acc ts =
        (acc.1 + List.countP service_valid
            (List.flatten (ts.map (fun t => (dictLookup d t).getD []))),
         acc.2 + List.countP service_expired
            (List.flatten (ts.map (fun t => (dictLookup d t).getD [])))) := by
  induction ts with
  | nil => intro acc; simp [count_types]
  | cons t rest ih =>
    intro acc
    cases hl : dictLookup d t with
    | none =>
      simp only [count_types, hl]
      rw [ih]
      simp [hl]
    | some items =>
      simp only [count_types, hl]
      rw [ih, count_group_spec]
      simp only [List.map_cons, List.flatten_cons, hl, Option.getD_some,
        List.countP_append, Prod.mk.injEq]
      constructor <;> omega

lemma count_services_spec (d : List (String × List ServiceItem)) :
    count_services d =
      (List.countP service_valid (all_entries d),
       List.countP service_expired (all_entries d)) := by
  rw [count_services, count_types_spec]
  simp [all_entries]

/-! ### Retry-loop lemmas -/

lemma queryLoop_fields (serial : String) (index total max_retries : Nat)
    (attempts : Nat → Attempt) :
    ∀ l r, queryLoop serial index total max_retries attempts l = some r →
      r.serial = serial ∧ r.index = index ∧ r.total = total := by
  intro l
  induction l with
  | nil => intro r h; simp [queryLoop] at h
  | cons rc rest ih =>
    intro r h
    cases hA : attempts rc with
    | error msg =>
      simp only [queryLoop, hA] at h
      split at h
      · exact ih r h
      · cases h
        exact ⟨rfl, rfl, rfl⟩
    | response p =>
      simp only [queryLoop, hA] at h
      split at h
      · cases h
        exact ⟨rfl, rfl, rfl⟩
      · split at h
        · exact ih r h
        · cases h
          exact ⟨rfl, rfl, rfl⟩

lemma queryLoop_all_fail (serial : String) (index total max_retries : Nat)
    (attempts : Nat → Attempt) :
    ∀ n a, a + n = max_retries →
      (∀ k, a ≤ k → k ≤ max_retries → attemptSucceeds (attempts k) = false) →
      queryLoop serial index total max_retries attempts
          (List.range' a (n + 1)) =
        some { serial := serial, index := index, total := total,
               success := false,
               data := last_failure_data (attempts max_retries),
               retry_count := max_retries } := by
  intro n
  induction n with
  | zero =>
    intro a ha hfail
    have haeq : a = max_retries := by omega
    subst haeq
    have hr : List.range' a 1 = [a] := rfl
    rw [hr]
    have hf := hfail a le_rfl le_rfl
    cases hA : attempts a with
    | error msg =>
      simp [queryLoop, hA, last_failure_data]
    | response p =>
      have hne : (p.statusCode == 200) = false := by
        rw [hA] at hf
        simpa [attemptSucceeds] using hf
      simp [queryLoop, hA, hne, last_failure_data]
  | succ n ih =>
    intro a ha hfail
    have haa : a < max_retries := by omega
    have hr : List.range' a (n + 1 + 1) = a :: List.range' (a + 1) (n + 1) :=
      rfl
    rw [hr]
    cases hA : attempts a with
    | error msg =>
      simp only [queryLoop, hA, haa, if_true]
      exact ih (a + 1) (by omega) (fun k hk1 hk2 => hfail k (by omega) hk2)
    | response p =>
      have hne : (p.statusCode == 200) = false := by
        have hf := hfail a le_rfl (by omega)
        rw [hA] at hf
        simpa [attemptSucceeds] using hf
      simp only [queryLoop, hA, hne, Bool.false_eq_true, if_false, haa,
        if_true]
      exact ih (a + 1) (by omega) (fun k hk1 hk2 => hfail k (by omega) hk2)

/-! ### Load-loop lemmas -/

lemma loadLoop_stops_at_bad (s : String)
    (rest : List (String × Option QueryResultDict)) :
    ∀ (pre : List (String × Option QueryResultDict))
      (acc : List (String × QueryResult)),
      (∀ e ∈ pre, (Prod.snd e).isSome = true) →
      loadLoop (pre ++ (s, none) :: rest) acc = loadLoop pre acc := by
  intro pre
  induction pre with
  | nil => intro acc _; rfl
  | cons e pre2 ih =>
    intro acc hall
    obtain ⟨s2, od⟩ := e
    have hsome : od.isSome = true := hall (s2, od) (List.mem_cons_self _ _)
    cases od with
    | none => simp at hsome
    | some d =>
      have step1 : loadLoop (((s2, some d) :: pre2) ++ (s, none) :: rest) acc =
          loadLoop (pre2 ++ (s, none) :: rest)
            (dictInsert acc s2 (QueryResult.from_dict d)) := rfl
      have step2 : loadLoop ((s2, some d) :: pre2) acc =
          loadLoop pre2 (dictInsert acc s2 (QueryResult.from_dict d)) := rfl
      rw [step1, step2]
      exact ih _ (fun e2 he2 => hall e2 (List.mem_cons_of_mem _ he2))

lemma from_dict_to_dict (r : QueryResult) :
    QueryResult.from_dict (QueryResult.to_dict r) = r := rfl

lemma loadLoop_save (store : List (String × QueryResult)) :
    ∀ acc : List (String × QueryResult),
      (dictKeys acc ++ dictKeys store).Nodup →
      loadLoop (save_results store) acc = acc ++ store := by
  induction store with
  | nil => intro acc _; simp [save_results, loadLoop]
  | cons e rest ih =>
    intro acc hnd
    obtain ⟨s, r⟩ := e
    have hs : s ∉ dictKeys acc := by
      rw [List.nodup_append] at hnd
      exact fun hm => hnd.2.2 hm (by simp [dictKeys])
    have step : loadLoop (save_results ((s, r) :: rest)) acc =
        loadLoop (save_results rest)
          (dictInsert acc s (QueryResult.from_dict (QueryResult.to_dict r))) :=
      rfl
    rw [step, from_dict_to_dict, dictInsert_of_not_mem acc s r hs]
    have hnd2 : (dictKeys (acc ++ [(s, r)]) ++ dictKeys rest).Nodup := by
      have : dictKeys (acc ++ [(s, r)]) ++ dictKeys rest =
          dictKeys acc ++ ([s] ++ dictKeys rest) := by
        simp [dictKeys]
      rw [this]
      simpa [dictKeys] using hnd
    rw [ih _ hnd2]
    simp

/-! ### Claim theorems -/

/-- C7: for every identifier on a cache miss, if all `max_retries + 1`
attempts fail — by a raised transport/decode error or by a decoded
status other than 200 — then `query_with_retry` returns (never raises) a
`Failure` result whose `data` is the last transport error message or the
last non-success status message, and whose `retry_count` equals
`max_retries`; the cache is unchanged. -/
theorem C7_exhausted_attempts_failure (cache : List (String × QueryResult))
    (max_retries : Nat) (serial : String) (index total : Nat)
    (attempts : Nat → Attempt)
    (hmiss : dictLookup cache serial = none)
    (hfail : ∀ k, k ≤ max_retries → attemptSucceeds (attempts k) = false) :
    query_with_retry cache max_retries serial index total attempts =
      (some { serial := serial, index := index, total := total,
              success := false,
              data := last_failure_data (attempts max_retries),
              retry_count := max_retries }, cache) := by
  have hloop := queryLoop_all_fail serial index total max_retries attempts
    max_retries 0 (by omega) (fun k _ hk2 => hfail k hk2)
  simp only [query_with_retry, hmiss, List.range_eq_range', hloop]
  simp

/-- C7 witness: with `max_retries = 2` and a timeout on every attempt,
the fetcher returns a `Failure` with the timeout message and
`retry_count = 2`. -/
theorem C7_witness :
    (∀ k, k ≤ 2 → attemptSucceeds (attempts_all_timeout k) = false) ∧
      query_with_retry [] 2 "ABCDEFGH12" 1 1 attempts_all_timeout =
        (some { serial := "ABCDEFGH12", index := 1, total := 1,
                success := false,
                data := ResultData.errorDict "连接超时", retry_count := 2 },
         []) := by
  constructor
  · intro k _
    rfl
  · have h := C7_exhausted_attempts_failure [] 2 "ABCDEFGH12" 1 1
      attempts_all_timeout rfl (fun k _ => rfl)
    simpa [attempts_all_timeout, last_failure_data] using h

/-- C9: saving the Result Store to the durable document and loading it
back reproduces an equal mapping — the same identifiers bound to equal
`QueryResult`s (same outcome tag, payload, retry count and service
counts). -/
theorem C9_store_roundtrip (store : List (String × QueryResult))
    (h : (dictKeys store).Nodup) :
    load_previous_results (some (save_results store)) = store := by
  have h2 := loadLoop_save store [] (by simpa [dictKeys] using h)
  simpa [load_previous_results] using h2

/-- C9 witness: the round trip on a concrete two-entry store. -/
theorem C9_witness :
    (dictKeys store_ex).Nodup ∧
      load_previous_results (some (save_results store_ex)) = store_ex :=
  ⟨by decide, C9_store_roundtrip store_ex (by decide)⟩

/-- C5 counterexample: the claim says an unreadable entry is skipped
while every other entry of the document is still loaded.  On the
document `doc_bad` = [good A, unreadable B, good C] the code loads only
A: the whole loop sits inside one `try`, so entry C after the bad entry
is lost, refuting the claim. -/
theorem C5_counterexample :
    load_previous_results (some doc_bad) =
        [("AAAA1111BB", QueryResult.from_dict dict_ok)] ∧
      dictLookup (load_previous_results (some doc_bad)) "CCCC3333DD" =
        none := by
  constructor <;> rfl

/-- C5 (amended): a missing or corrupt storage document yields an empty
store (not a fatal error); when a loaded document contains an unreadable
entry, the entries preceding it are loaded and kept, while the
unreadable entry and every entry after it are dropped. -/
theorem C5_load_prefix_only :
    load_previous_results none = [] ∧
      ∀ (pre : List (String × Option QueryResultDict)) (s : String)
        (rest : List (String × Option QueryResultDict)),
        (∀ e ∈ pre, (Prod.snd e).isSome = true) →
        load_previous_results (some (pre ++ (s, none) :: rest)) =
          load_previous_results (some pre) := by
  refine ⟨rfl, ?_⟩
  intro pre s rest hall
  simp only [load_previous_results]
  exact loadLoop_stops_at_bad s rest pre [] hall

/-- C5 witness: a concrete document with a decodable prefix, an
unreadable entry and a decodable tail loads exactly like its prefix. -/
theorem C5_witness :
    (∀ e ∈ [("AAAA1111BB", some dict_ok)],
        (Prod.snd e).isSome = true) ∧
      load_previous_results
          (some ([("AAAA1111BB", some dict_ok)] ++
            ("BBBB2222CC", none) :: [("CCCC3333DD", some dict_c)])) =
        load_previous_results (some [("AAAA1111BB", some dict_ok)]) :=
  ⟨by simp, C5_load_prefix_only.2 [("AAAA1111BB", some dict_ok)]
    "BBBB2222CC" [("CCCC3333DD", some dict_c)] (by simp)⟩

/-- C2 counterexample: the claim says a cache hit is reported with
`retryCount = 0`.  Querying `"ABCDEFGH12"` with one raised attempt and
then a successful retry caches a result with `retry_count = 1`; the
re-query returns that cached object, so the reported retry count is 1,
not 0. -/
theorem C2_counterexample :
    Option.map QueryResult.retry_count second_query_pair.1 = some 1 ∧
      Option.map QueryResult.retry_count second_query_pair.1 ≠ some 0 := by
  constructor <;> decide

/-- C2 (amended): for every identifier with a cached result, re-querying
it issues zero network calls (the outcome does not depend on the attempt
function at all, so no retry and no delay either) and returns the cached
object unchanged — whose `retry_count` is the one recorded when it was
first created, not necessarily 0. -/
theorem C2_cache_hit_returns_cached (cache : List (String × QueryResult))
    (max_retries : Nat) (serial : String) (r : QueryResult)
    (index total : Nat) (attempts : Nat → Attempt)
    (hhit : dictLookup cache serial = some r) :
    query_with_retry cache max_retries serial index total attempts =
      (some r, cache) := by
  simp only [query_with_retry, hhit]

/-- C2 witness: a cache holding a success with `retry_count = 1` hands
back exactly that object on a re-query, under an attempt function that
would always time out if it were consulted. -/
theorem C2_witness :
    dictLookup cache_hit_ex "ABCDEFGH12" = some cached_retry1 ∧
      query_with_retry cache_hit_ex 2 "ABCDEFGH12" 7 9
          attempts_all_timeout = (some cached_retry1, cache_hit_ex) :=
  ⟨rfl, C2_cache_hit_returns_cached cache_hit_ex 2 "ABCDEFGH12"
    cached_retry1 7 9 attempts_all_timeout rfl⟩

/-- C1 counterexample: the claim says the Retrying Fetcher never reads
or writes the Result Cache.  Running `query_with_retry` on an empty
cache with a first-attempt success leaves the cache non-empty: the
fetcher itself performs the cache write of line 122, refuting the
claim. -/
theorem C1_counterexample :
    (query_with_retry [] 2 "ABCDEFGH12" 1 1 attempts_ok).2 ≠ [] := by
  decide

/-- C1 (amended): the Fetcher itself reads and writes the Result Cache:
it short-circuits on a cached entry and inserts each successful result
into the cache; its only cache mutation is that single insertion — on a
failed outcome the cache is returned unchanged, and entries of other
identifiers are never modified.  (The Result Store is not accessible to
the fetcher at all; it is mutated only in the orchestrator's
completion-handling path, `handle_completion`.) -/
theorem C1_fetcher_cache_effects (cache : List (String × QueryResult))
    (max_retries : Nat) (serial : String) (index total : Nat)
    (attempts : Nat → Attempt)
    (hmiss : dictLookup cache serial = none) :
    ∀ r, (query_with_retry cache max_retries serial index total attempts).1 =
        some r →
      (r.success = false →
        (query_with_retry cache max_retries serial index total attempts).2 =
          cache) ∧
      (r.success = true →
        (query_with_retry cache max_retries serial index total attempts).2 =
            dictInsert cache serial r ∧
          dictLookup (query_with_retry cache max_retries serial index total
              attempts).2 serial = some r ∧
          ∀ s, s ≠ serial →
            dictLookup (query_with_retry cache max_retries serial index total
                attempts).2 s = dictLookup cache s) := by
  intro r h1
  simp only [query_with_retry, hmiss] at h1 ⊢
  cases hq : queryLoop serial index total max_retries attempts
      (List.range (max_retries + 1)) with
  | none =>
    simp only [hq] at h1
    exact Option.noConfusion h1
  | some r0 =>
    simp only [hq] at h1 ⊢
    have hr : r0 = r := by
      injection h1
    subst hr
    constructor
    · intro hf
      simp [hf]
    · intro ht
      refine ⟨by simp [ht], ?_, ?_⟩
      · simp [ht, dictLookup_insert_self]
      · intro s hs
        simp [ht, dictLookup_insert_ne cache serial r0 s hs]

/-- C1 witness: on an empty cache with an immediate success, the
returned cache is exactly the singleton insertion of the fetched
result. -/
theorem C1_witness :
    dictLookup ([] : List (String × QueryResult)) "ABCDEFGH12" = none ∧
      (query_with_retry [] 2 "ABCDEFGH12" 1 1 attempts_ok).2 =
        dictInsert [] "ABCDEFGH12" fetched_ok :=
  ⟨rfl, ((C1_fetcher_cache_effects [] 2 "ABCDEFGH12" 1 1 attempts_ok rfl
    fetched_ok rfl).2 rfl).1⟩

/-- C10: a cache hit returns the very `QueryResult` created when the
identifier was first (successfully) queried, so a re-query at another
position `i2` of another batch of size `T2` still reports the original
`index = i` and `total = T`. -/
theorem C10_cache_hit_original_position
    (cache : List (String × QueryResult)) (max_retries : Nat)
    (serial : String) (i T : Nat) (attempts : Nat → Attempt)
    (r : QueryResult) (cache2 : List (String × QueryResult))
    (hmiss : dictLookup cache serial = none)
    (hrun : query_with_retry cache max_retries serial i T attempts =
      (some r, cache2))
    (hsucc : r.success = true) :
    r.index = i ∧ r.total = T ∧
      ∀ i2 T2 attempts2,
        (query_with_retry cache2 max_retries serial i2 T2 attempts2).1 =
          some r := by
  simp only [query_with_retry, hmiss] at hrun
  cases hq : queryLoop serial i T max_retries attempts
      (List.range (max_retries + 1)) with
  | none =>
    simp only [hq] at hrun
    exact absurd hrun (by simp)
  | some r0 =>
    simp only [hq, Prod.mk.injEq] at hrun
    obtain ⟨h1, h2⟩ := hrun
    have hr : r0 = r := by
      injection h1
    subst hr
    have hfields := queryLoop_fields serial i T max_retries attempts _ _ hq
    refine ⟨hfields.2.1, hfields.2.2, ?_⟩
    intro i2 T2 attempts2
    have hlook : dictLookup cache2 serial = some r0 := by
      rw [← h2]
      simp only [hsucc, if_true]
      exact dictLookup_insert_self cache serial r0
    simp only [query_with_retry, hlook]

/-- C10 witness: `"ABCDEFGH12"` first queried at position 3 of a
10-identifier batch; the re-query at position 9 of a 99-identifier batch
returns the original object, whose `index` is 3 and `total` is 10. -/
theorem C10_witness :
    dictLookup ([] : List (String × QueryResult)) "ABCDEFGH12" = none ∧
      (query_with_retry (dictInsert [] "ABCDEFGH12" fetched_pos3) 2
          "ABCDEFGH12" 9 99 attempts_all_timeout).1 = some fetched_pos3 ∧
      fetched_pos3.index = 3 ∧ fetched_pos3.total = 10 :=
  ⟨rfl,
    (C10_cache_hit_original_position [] 2 "ABCDEFGH12" 3 10 attempts_ok
      fetched_pos3 (dictInsert [] "ABCDEFGH12" fetched_pos3) rfl rfl
      rfl).2.2 9 99 attempts_all_timeout,
    rfl, rfl⟩

/-- C8: for a successful status-200 payload, the display update counts
every service-detail entry with a positive days-remaining figure as
valid and every entry with a non-positive figure as expired, across all
service-type groups, and sets `total_services` to their sum. -/
theorem C8_service_counting (r : QueryResult) (p : ResponsePayload)
    (hs : r.success = true) (hd : r.data = ResultData.payload p)
    (h200 : p.statusCode = 200) :
    (update_result_display r).valid_services =
        List.countP service_valid (all_entries p.detailinfo) ∧
      (update_result_display r).expired_services =
        List.countP service_expired (all_entries p.detailinfo) ∧
      (update_result_display r).total_services =
        (update_result_display r).valid_services +
          (update_result_display r).expired_services := by
  have hb : (p.statusCode == 200) = true := by
    simp [h200]
  simp only [update_result_display, hs, if_true, hd, hb,
    count_services_spec]
  simp

/-- C8 witness: the scenario payload with exactly one entry carrying
`DateDifference = -5` yields `valid_services = 0`,
`expired_services = 1`, `total_services = 1`. -/
theorem C8_witness :
    result_one_expired.success = true ∧
      result_one_expired.data = ResultData.payload payload_one_expired ∧
      payload_one_expired.statusCode = 200 ∧
      (update_result_display result_one_expired).valid_services =
        List.countP service_valid
          (all_entries payload_one_expired.detailinfo) ∧
      (update_result_display result_one_expired).valid_services = 0 ∧
      (update_result_display result_one_expired).expired_services = 1 ∧
      (update_result_display result_one_expired).total_services = 1 := by
  refine ⟨rfl, rfl, rfl,
    (C8_service_counting result_one_expired payload_one_expired rfl rfl
      rfl).1, ?_, ?_, ?_⟩ <;> decide

/-- C4 counterexample: the claim says no operation reassigns any field
of an existing `QueryResult`.  The display update applied to
`result_one_expired` (a success payload with one expired entry and the
freshly-created zero counters) produces different field values —
lines 322-324 reassign `valid_services`, `expired_services` and
`total_services` on the existing object — refuting the claim. -/
theorem C4_counterexample :
    update_result_display result_one_expired ≠ result_one_expired := by
  decide

/-- C4 (amended): the display update reassigns only the three
service-count fields of the existing `QueryResult` (in place in the
source, so the change is visible through every alias of the object);
the other six fields are never reassigned.  The concrete conjunct shows
the reassignment actually happens. -/
theorem C4_update_reassigns_only_counts :
    (∀ r : QueryResult,
        (update_result_display r).serial = r.serial ∧
          (update_result_display r).index = r.index ∧
          (update_result_display r).total = r.total ∧
          (update_result_display r).success = r.success ∧
          (update_result_display r).data = r.data ∧
          (update_result_display r).retry_count = r.retry_count) ∧
      (update_result_display result_one_expired).expired_services ≠
        result_one_expired.expired_services :=
  ⟨update_result_display_frame, by decide⟩

/-- C3 counterexample: the claim says the store is persisted after
every 100th completion regardless of that completion's outcome, hence
at least 3 durable writes for a 250-identifier batch.  On a 250-batch
whose completions all fail, the checkpoint branch (nested inside the
success branch at lines 190-193) never runs: only the single final
`save_results()` happens — 1 write, not at least 3. -/
theorem C3_counterexample :
    (execute_query [] batch_250_fail).save_count = 1 ∧
      ¬ 3 ≤ (execute_query [] batch_250_fail).save_count := by
  have h1 : (execute_query [] batch_250_fail).save_count = 1 := rfl
  refine ⟨h1, ?_⟩
  rw [h1]
  omega

/-- C3 (amended): the store is saved at the `checkpointInterval`-th
(100th) completion only when that completion's result is a stored
status-200 success, plus one unconditional save after all completions;
so the number of durable writes is `checkpoint_saves 0 rs + 1`, and a
250-identifier batch whose completions are all successes performs
exactly 3 writes. -/
theorem C3_checkpoint_saves_characterization :
    (∀ (store : List (String × QueryResult)) (rs : List QueryResult),
        (execute_query store rs).save_count = checkpoint_saves 0 rs + 1) ∧
      (execute_query [] batch_250_ok).save_count = 3 := by
  constructor
  · intro store rs
    simp only [execute_query]
    rw [process_completions_save_count]
    simp
  · rfl

/-- C6 counterexample: the claim says the Result Store receives
`Failure` results as well as successes (failures present transiently).
Processing a single failed completion from an empty store leaves the
store empty — the failure goes only into `failed_serials`, never into
the store — refuting the claim. -/
theorem C6_counterexample :
    (execute_query [] [fail_result_fx]).query_results = [] ∧
      (execute_query [] [fail_result_fx]).failed_serials =
        ["FAILFAIL12"] := by
  constructor <;> rfl

/-- C6 (amended): the Result Store holds at most one entry per
identifier and receives only status-200 `Success` results — a failed
completion is recorded in `failedIdentifiers`, never in the store; a
later successful result for an identifier overwrites the prior entry;
and the cache likewise holds only successes.  Stated as: (1) the
completion loop preserves "every store entry is a stored success";
(2) it preserves key uniqueness; (3) a stored success is looked up
under its serial afterwards (last write wins); (4) the fetcher
preserves "every cache entry is a success". -/
theorem C6_store_success_only :
    (∀ (st : ExecState) (rs : List QueryResult),
        (∀ q ∈ st.query_results, store_condition q.2 = true) →
        ∀ q ∈ (process_completions st rs).query_results,
          store_condition q.2 = true) ∧
      (∀ (st : ExecState) (rs : List QueryResult),
        (dictKeys st.query_results).Nodup →
        (dictKeys (process_completions st rs).query_results).Nodup) ∧
      (∀ (st : ExecState) (r : QueryResult), store_condition r = true →
        dictLookup (handle_completion st r).query_results r.serial =
          some (update_result_display r)) ∧
      (∀ (cache : List (String × QueryResult)) (max_retries : Nat)
          (serial : String) (index total : Nat)
          (attempts : Nat → Attempt),
        (∀ q ∈ cache, q.2.success = true) →
        ∀ q ∈ (query_with_retry cache max_retries serial index total
            attempts).2, q.2.success = true) := by
  refine ⟨?_, ?_, ?_, ?_⟩
  · intro st rs
    induction rs generalizing st with
    | nil => intro h; exact h
    | cons r rest ih =>
      intro h
      have step : process_completions st (r :: rest) =
          process_completions (handle_completion st r) rest := rfl
      rw [step]
      refine ih _ ?_
      by_cases hc : store_condition r = true
      · rw [handle_completion_store st r hc]
        exact forall_dictInsert _ _ _ h
          (by show store_condition (update_result_display r) = true
              rw [store_condition_update]
              exact hc)
      · rw [Bool.not_eq_true] at hc
        rw [(handle_completion_no_store st r hc).1]
        exact h
  · intro st rs
    induction rs generalizing st with
    | nil => intro h; exact h
    | cons r rest ih =>
      intro h
      have step : process_completions st (r :: rest) =
          process_completions (handle_completion st r) rest := rfl
      rw [step]
      refine ih _ ?_
      by_cases hc : store_condition r = true
      · rw [handle_completion_store st r hc]
        exact nodup_dictKeys_insert _ _ _ h
      · rw [Bool.not_eq_true] at hc
        rw [(handle_completion_no_store st r hc).1]
        exact h
  · intro st r hc
    rw [handle_completion_store st r hc]
    exact dictLookup_insert_self _ _ _
  · intro cache max_retries serial index total attempts h q hq
    cases hl : dictLookup cache serial with
    | some r =>
      simp only [query_with_retry, hl] at hq
      exact h q hq
    | none =>
      simp only [query_with_retry, hl] at hq
      cases hq2 : queryLoop serial index total max_retries attempts
          (List.range (max_retries + 1)) with
      | none =>
        simp only [hq2] at hq
        exact h q hq
      | some r0 =>
        simp only [hq2] at hq
        by_cases hs : r0.success = true
        · simp only [hs, if_true] at hq
          exact forall_dictInsert cache serial r0 h hs q hq
        · rw [Bool.not_eq_true] at hs
          simp [hs] at hq
          exact h q hq

/-- C6 witness: the invariants applied to a concrete run — a failure
followed by a success leaves only stored successes, and the stored
success is found under its serial. -/
theorem C6_witness :
    (∀ q ∈ (process_completions init_exec_state
        [fail_result_fx, ok_result]).query_results,
      store_condition q.2 = true) ∧
      dictLookup (handle_completion init_exec_state
          ok_result).query_results "AAAABBBB12" =
        some (update_result_display ok_result) := by
  constructor
  · exact C6_store_success_only.1 init_exec_state
      [fail_result_fx, ok_result] (by simp [init_exec_state])
  · exact C6_store_success_only.2.2.1 init_exec_state ok_result
      (by decide)
